import Mathlib

set_option linter.unusedVariables false

/- Shallow embedding of src/src/package.ts: the npm dependency-graph
   resolver class Package, its static caches, registry client and
   tarball downloader.

   Class instances are represented as entries of an arena (St.nodes)
   addressed by NodeId, so JavaScript object identity is NodeId
   equality.  The static Maps Package.cache and Package.apiCache are
   association lists inside the state St; Map.set's overwrite
   semantics is obtained by consing in front and looking up the first
   hit.  Network effects are modelled by an oracle (a function from
   the index of the fetch call to its outcome) consumed at an explicit
   fetch counter carried in the state, so "no network activity" is
   "fetchCount unchanged". -/

abbrev NodeId := Nat

structure Package where
  name : String
  version : String
  dependencies : List NodeId := []
  dependents : List NodeId := []
  error : Bool := false
  loading : Bool := false
  resolved : Bool := false
  tarballURL : Option String := none
deriving Repr, DecidableEq

instance : Inhabited Package := ⟨{ name := "", version := "" }⟩

/-- Embeds fullNameByNameAndVersion: the template literal name@version. -/
def fullNameByNameAndVersion (name version : String) : String :=
  name ++ "@" ++ version

/-- Embeds the fullName getter. -/
def Package.fullName (p : Package) : String :=
  fullNameByNameAndVersion p.name p.version

/-- Embeds the isRoot getter: dependents.length === 0. -/
def Package.isRoot (p : Package) : Bool :=
  p.dependents.isEmpty

/-- Embeds static readonly MAX_TRIES = 10. -/
def Package.MAX_TRIES : Nat := 10

/-- Embeds enum Errors.NOT_FOUND (unused by the source code itself). -/
def Errors.NOT_FOUND : String := "not found"

/-- Embeds enum Errors.NO_TARBALL (unused by the source code itself). -/
def Errors.NO_TARBALL : String := "no tarball"

/-- Embeds enum Errors.TOO_MANY_FAILURES. -/
def Errors.TOO_MANY_FAILURES : String := "too many failures"

/-- Embeds enum Errors.REGISTRY_ERROR. -/
def Errors.REGISTRY_ERROR : String := "REGISTRY_ERROR"

/-- Embeds interface APIResponse: dependencies (object = assoc list of
name to range string), dist (shasum, tarball), versions (assoc list of
version key to the per-version metadata object, itself read back as an
APIResponse by the code). -/
inductive APIResponse where
  | mk (dependencies : Option (List (String × String)))
       (dist : Option (String × String))
       (versions : Option (List (String × APIResponse)))

def APIResponse.dependencies : APIResponse → Option (List (String × String))
  | .mk d _ _ => d

def APIResponse.dist : APIResponse → Option (String × String)
  | .mk _ d _ => d

def APIResponse.versions : APIResponse → Option (List (String × APIResponse))
  | .mk _ _ v => v

/-- The mutable global state of the module: the arena of Package
instances, the static Package.cache (fullName to node) and
Package.apiCache (name to response), and the number of registry fetch
calls performed so far. -/
structure St where
  nodes : List Package
  cache : List (String × NodeId)
  apiCache : List (String × APIResponse)
  fetchCount : Nat

def getNode (st : St) (i : NodeId) : Package :=
  st.nodes.getD i default

def setNode (st : St) (i : NodeId) (f : Package → Package) : St :=
  { st with nodes := st.nodes.set i (f (getNode st i)) }

/-- JavaScript truthiness of a string that may be undefined: undefined
and the empty string are falsy. -/
def optStrTruthy : Option String → Bool
  | none => false
  | some s => if s = "" then false else true

/-- Outcome of response.json(): it can reject (parse failure), resolve
to a falsy value (modelled as val none), or resolve to an object. -/
inductive JsonOutcome where
  | jthrow
  | val (v : Option APIResponse)

/-- Outcome of one node-fetch call in apiRequest: a rejected promise
(transport exception) or a Response carrying status, statusText and a
body; response.ok is derived from the status as in node-fetch. -/
inductive FetchOutcome where
  | fthrow
  | resp (status : Nat) (statusText : String) (body : JsonOutcome)

/-- Embeds the do-while retry loop of Package.apiRequest (lines
176-207).  Arguments: the oracle, the global fetch counter, the local
triesCount, and the remaining loop iterations (MAX_TRIES - triesCount,
kept as fuel so the recursion is structural).  Returns the result of
the loop together with the new fetch counter.  A 404 throws
REGISTRY_ERROR and any other non-ok status throws statusText, both
without retrying; a transport exception, a json() rejection and a
falsy body all count as one failed attempt; exhausting MAX_TRIES
attempts throws TOO_MANY_FAILURES. -/
def apiRequestLoop (oracle : Nat → FetchOutcome) :
    Nat → Nat → Nat → (Except String APIResponse) × Nat
  | fc, _, 0 => (Except.error Errors.TOO_MANY_FAILURES, fc)
  | fc, triesCount, remaining + 1 =>
    match oracle fc with
    | FetchOutcome.fthrow =>
        if triesCount + 1 < Package.MAX_TRIES then
          apiRequestLoop oracle (fc + 1) (triesCount + 1) remaining
        else (Except.error Errors.TOO_MANY_FAILURES, fc + 1)
    | FetchOutcome.resp status statusText body =>
        if 200 ≤ status ∧ status < 300 then
          match body with
          | JsonOutcome.val (some r) => (Except.ok r, fc + 1)
          | JsonOutcome.val none =>
              if triesCount + 1 < Package.MAX_TRIES then
                apiRequestLoop oracle (fc + 1) (triesCount + 1) remaining
              else (Except.error Errors.TOO_MANY_FAILURES, fc + 1)
          | JsonOutcome.jthrow =>
              if triesCount + 1 < Package.MAX_TRIES then
                apiRequestLoop oracle (fc + 1) (triesCount + 1) remaining
              else (Except.error Errors.TOO_MANY_FAILURES, fc + 1)
        else
          if status = 404 then (Except.error Errors.REGISTRY_ERROR, fc + 1)
          else (Except.error statusText, fc + 1)

/-- Embeds interface APIRequest: name plus optional version. -/
structure APIRequest where
  name : String
  version : Option String

/-- Embeds static Package.apiRequest.  When the name is in apiCache:
with a truthy version it returns cachedResponse.versions![version]
(an unguarded indexing: a missing key yields undefined, modelled as ok
none, and an absent versions field is a TypeError); otherwise it
returns the cached response itself.  On a cache miss it runs the retry
loop, and caches the response under the name when the version was
falsy (the unscoped case). -/
def Package.apiRequest (st : St) (oracle : Nat → FetchOutcome) (arg : APIRequest) :
    (Except String (Option APIResponse)) × St :=
  match List.lookup arg.name st.apiCache with
  | some cachedResponse =>
      if optStrTruthy arg.version then
        match cachedResponse.versions with
        | none => (Except.error "TypeError: cannot read properties of undefined", st)
        | some m => (Except.ok (List.lookup (arg.version.getD "") m), st)
      else (Except.ok (some cachedResponse), st)
  | none =>
      let versionStr := if optStrTruthy arg.version then arg.version.getD "" else ""
      match apiRequestLoop oracle st.fetchCount 0 Package.MAX_TRIES with
      | (Except.error e, fc') => (Except.error e, { st with fetchCount := fc' })
      | (Except.ok resp, fc') =>
          if versionStr = "" then
            (Except.ok (some resp),
             { st with fetchCount := fc', apiCache := (arg.name, resp) :: st.apiCache })
          else
            (Except.ok (some resp), { st with fetchCount := fc' })

/-- Character-list splitter on a single separator, mirroring
String.splitOn for the one-character separators the code uses; written
on List Char by structural recursion so that concrete scenarios
evaluate inside the kernel. -/
def chSplitOn (sep : Char) : List Char → List Char → List (List Char)
  | [], acc => [acc.reverse]
  | c :: rest, acc =>
      if c = sep then acc.reverse :: chSplitOn sep rest []
      else chSplitOn sep rest (c :: acc)

/-- Character-list intercalation with a one-character separator. -/
def chIntercalate (sep : Char) : List (List Char) → List Char
  | [] => []
  | [x] => x
  | x :: xs => x ++ sep :: chIntercalate sep xs

/-- Decimal value of a nonempty all-digit character list, none
otherwise. -/
def digitsToNat (l : List Char) : Option Nat :=
  if l.isEmpty then none
  else
    l.foldl
      (fun acc c =>
        match acc with
        | none => none
        | some n => if c.isDigit then some (n * 10 + (c.toNat - 48)) else none)
      (some 0)

/-- Model of the external semver library: split a version into its
major.minor.patch part and its prerelease identifier list (the build
part after a plus sign is dropped, the part after the first hyphen is
the dot-separated prerelease). -/
def splitPre (s : List Char) : List Char × List (List Char) :=
  let noBuild := (chSplitOn '+' s []).headD s
  match chSplitOn '-' noBuild [] with
  | [] => (noBuild, [])
  | [m] => (m, [])
  | m :: rest => (m, chSplitOn '.' (chIntercalate '-' rest) [])

/-- Model of the external semver library: parse a strict X.Y.Z core. -/
def parseMMP (s : List Char) : Option (Nat × Nat × Nat) :=
  match chSplitOn '.' s [] with
  | [a, b, c] =>
      match digitsToNat a, digitsToNat b, digitsToNat c with
      | some x, some y, some z => some (x, y, z)
      | _, _, _ => none
  | _ => none

/-- Model of the external semver library: parse a full version,
allowing a leading v. -/
def parseSemVer (s : String) : Option (Nat × Nat × Nat × List (List Char)) :=
  let cs := match s.data with
    | 'v' :: rest => rest
    | l => l
  let (core, pre) := splitPre cs
  match parseMMP core with
  | none => none
  | some (x, y, z) => some (x, y, z, pre)

/-- Lexicographic order on character lists. -/
def chListLt : List Char → List Char → Bool
  | [], [] => false
  | [], _ :: _ => true
  | _ :: _, [] => false
  | a :: as, b :: bs => if a = b then chListLt as bs else decide (a < b)

/-- Model of the external semver library: precedence between two
prerelease identifiers (numeric below alphanumeric, numeric compared
as numbers, alphanumeric lexically). -/
def preIdLt (a b : List Char) : Bool :=
  match digitsToNat a, digitsToNat b with
  | some x, some y => decide (x < y)
  | some _, none => true
  | none, some _ => false
  | none, none => chListLt a b

/-- Model of the external semver library: precedence between two
nonempty prerelease identifier lists (a shorter list that is a prefix
of the longer has lower precedence). -/
def preListLt : List (List Char) → List (List Char) → Bool
  | [], [] => false
  | [], _ :: _ => true
  | _ :: _, [] => false
  | a :: as, b :: bs => if a = b then preListLt as bs else preIdLt a b

/-- Model of the external semver library: strict precedence between
two parsed versions; a version with a prerelease part has lower
precedence than its release. -/
def semverLt (a b : Nat × Nat × Nat × List (List Char)) : Bool :=
  let (a1, a2, a3, ap) := a
  let (b1, b2, b3, bp) := b
  if a1 ≠ b1 then decide (a1 < b1)
  else if a2 ≠ b2 then decide (a2 < b2)
  else if a3 ≠ b3 then decide (a3 < b3)
  else
    match ap, bp with
    | [], [] => false
    | [], _ :: _ => false
    | _ :: _, [] => true
    | pa, pb => preListLt pa pb

/-- Model of the external semver library: non-strict precedence. -/
def semverLe (a b : Nat × Nat × Nat × List (List Char)) : Bool :=
  !(semverLt b a)

/-- Model of the external semver library: parse one comparator token
of a range (an operator prefix among >=, <=, >, <, = followed by a
version, or a bare version meaning equality). -/
def parseComparator : List Char → Option (String × (Nat × Nat × Nat × List (List Char)))
  | '>' :: '=' :: rest => (parseSemVer (String.mk rest)).map (fun v => (">=", v))
  | '<' :: '=' :: rest => (parseSemVer (String.mk rest)).map (fun v => ("<=", v))
  | '>' :: rest => (parseSemVer (String.mk rest)).map (fun v => (">", v))
  | '<' :: rest => (parseSemVer (String.mk rest)).map (fun v => ("<", v))
  | '=' :: rest => (parseSemVer (String.mk rest)).map (fun v => ("=", v))
  | tok => (parseSemVer (String.mk tok)).map (fun v => ("=", v))

/-- Model of the external semver library: does a parsed version meet
one comparator. -/
def satisfiesComparator (v : Nat × Nat × Nat × List (List Char))
    (c : String × (Nat × Nat × Nat × List (List Char))) : Bool :=
  match c.1 with
  | ">=" => semverLe c.2 v
  | "<=" => semverLe v c.2
  | ">" => semverLt c.2 v
  | "<" => semverLt v c.2
  | _ => v = c.2

/-- Model of the external semver library's satisfies for the range
syntax the code can reach (space-separated comparators and hyphen
ranges); the prerelease-only-with-matching-tuple refinement of npm
ranges is not modelled, no theorem depends on it. -/
def semverSatisfies (vs : String) (range : String) : Bool :=
  match parseSemVer vs with
  | none => false
  | some v =>
    let toks := (chSplitOn ' ' range.data []).filter (fun t => !t.isEmpty)
    match toks with
    | [a, ['-'], b] =>
        match parseSemVer (String.mk a), parseSemVer (String.mk b) with
        | some va, some vb => semverLe va v && semverLe v vb
        | _, _ => false
    | _ =>
        toks.all (fun t =>
          match parseComparator t with
          | none => false
          | some c => satisfiesComparator v c)

/-- Model of the external semver library's maxSatisfying: the highest
version of the list that satisfies the range, or null. -/
def semverMaxSatisfying (versions : List String) (range : String) : Option String :=
  versions.foldl
    (fun best v =>
      if semverSatisfies v range then
        match best with
        | none => some v
        | some b =>
            match parseSemVer b, parseSemVer v with
            | some pb, some pv => if semverLt pb pv then some v else some b
            | _, _ => some b
      else best)
    none

/-- Decimal digit list with leading zeros stripped (the canonical
rendering of its numeric value for all-digit input). -/
def normDigits (l : List Char) : List Char :=
  match l.dropWhile (fun c => c = '0') with
  | [] => ['0']
  | r => r

/-- Model of the external semver library's coerce: the first run of up
to three dot-separated numeric components anywhere in the string,
padded with zeros, as the string X.Y.Z; null when the string holds no
digit. -/
def semverCoerce (s : String) : Option String :=
  let cs := s.data.dropWhile (fun c => !c.isDigit)
  if cs.isEmpty then none
  else
    let c1 := cs.takeWhile Char.isDigit
    let r1 := cs.dropWhile Char.isDigit
    let step := fun (r : List Char) =>
      match r with
      | '.' :: t =>
          if (t.takeWhile Char.isDigit).isEmpty then (([] : List Char), r)
          else (t.takeWhile Char.isDigit, t.dropWhile Char.isDigit)
      | _ => (([] : List Char), r)
    let (c2, r2) := step r1
    let c3 := (step r2).1
    some (String.mk (normDigits c1 ++ '.' :: normDigits c2 ++ '.' :: normDigits c3))

/-- Model of the external npm-package-arg library restricted to the
plain specifier grammar the spec names (name, name@version, and scoped
names with at most one version separator); anything else is a parse
failure, returned as none like the catch branch of fromString. -/
def npmPackageArg (s : String) : Option (String × Option String) :=
  match s.data with
  | [] => none
  | c :: rest =>
      match chSplitOn '@' rest [] with
      | [n] => some (String.mk (c :: n), none)
      | [n, v] => some (String.mk (c :: n), some (String.mk v))
      | _ => none

/-- Embeds static Package.fromNameAndVersion (the getOrCreate of the
spec): return the node cached under the full name, else construct a
fresh node (a fresh arena index) and insert it under its full name. -/
def Package.fromNameAndVersion (st : St) (name version : String) : NodeId × St :=
  let fullName := fullNameByNameAndVersion name version
  match List.lookup fullName st.cache with
  | some id => (id, st)
  | none =>
      let result : Package := { name := name, version := version }
      let id := st.nodes.length
      (id, { st with nodes := st.nodes ++ [result],
                     cache := (result.fullName, id) :: st.cache })

/-- Embeds static Package.fromSemanticVersion: "*" becomes "latest"; a
specifier holding a comparator or a hyphen is resolved against the
keys of the unscoped metadata through maxSatisfying with "latest" as
fallback, propagating apiRequest failures; anything else is coerced
with "latest" as fallback. -/
def Package.fromSemanticVersion (st : St) (oracle : Nat → FetchOutcome)
    (name semanticVersion : String) : (Except String NodeId) × St :=
  if semanticVersion = "*" then
    let (id, st') := Package.fromNameAndVersion st name "latest"
    (Except.ok id, st')
  else if semanticVersion.data.contains '<' || semanticVersion.data.contains '-' then
    match Package.apiRequest st oracle { name := name, version := none } with
    | (Except.error e, st') => (Except.error e, st')
    | (Except.ok none, st') =>
        (Except.error "TypeError: cannot read properties of undefined", st')
    | (Except.ok (some r), st') =>
        match r.versions with
        | none => (Except.error "TypeError: cannot read properties of undefined", st')
        | some m =>
            let version := (semverMaxSatisfying (m.map Prod.fst) semanticVersion).getD "latest"
            let (id, st'') := Package.fromNameAndVersion st' name version
            (Except.ok id, st'')
  else
    let version := (semverCoerce semanticVersion).getD "latest"
    let (id, st') := Package.fromNameAndVersion st name version
    (Except.ok id, st')

/-- Embeds static Package.fromString: parse through npm-package-arg
(a parse failure yields undefined), default the fetch spec to
"latest", and defer to fromNameAndVersion. -/
def Package.fromString (st : St) (s : String) : Option NodeId × St :=
  match npmPackageArg s with
  | none => (none, st)
  | some (name, fetchSpec) =>
      let version := fetchSpec.getD "latest"
      let (id, st') := Package.fromNameAndVersion st name version
      (some id, st')

/-- Embeds static Package.fillCacheByFullNames: parse every full name
through fromString, skip parse failures, mark the node resolved and
set it in the cache under the given string. -/
def Package.fillCacheByFullNames (st : St) (fullNames : List String) : St :=
  fullNames.foldl
    (fun st fullName =>
      match Package.fromString st fullName with
      | (none, st') => st'
      | (some id, st') =>
          let st'' := setNode st' id (fun n => { n with resolved := true })
          { st'' with cache := (fullName, id) :: st''.cache })
    st

/-- Short-circuiting Array.prototype.some over an Option-valued
predicate: none (fuel ran out in a branch, the JavaScript recursion
would not terminate) is propagated, true short-circuits. -/
def ancSome (f : NodeId → Option Bool) : List NodeId → Option Bool
  | [] => some false
  | d :: rest =>
      match f d with
      | none => none
      | some true => some true
      | some false => ancSome f rest

/-- Embeds Package.isAncestorEqual with explicit fuel: true when the
candidate equals this node by full name, false at a root, else the
disjunction over the dependents' recursive calls.  The JavaScript
recursion can diverge on a cyclic dependents graph; none models that
divergence and every concrete scenario below runs with ample fuel. -/
def isAncestorEqualFuel (st : St) : Nat → NodeId → NodeId → Option Bool
  | 0, _, _ => none
  | fuel + 1, selfId, pkgId =>
      if (getNode st pkgId).fullName = (getNode st selfId).fullName then some true
      else if (getNode st selfId).isRoot then some false
      else ancSome (fun d => isAncestorEqualFuel st fuel d pkgId) (getNode st selfId).dependents

/-- Embeds Package.addDependent called as dependency.addDependent(this):
push the parent onto the dependency's dependents unless already there
(object identity, so NodeId equality). -/
def Package.addDependent (st : St) (depId parentId : NodeId) : St :=
  setNode st depId (fun n =>
    if n.dependents.contains parentId then n
    else { n with dependents := n.dependents ++ [parentId] })

/-- Embeds the for-of loop of Package.getDependencies over
Object.entries(dependencies): resolve each child specifier, drop the
edge when the child is an ancestor-or-equal of the expanding node,
else record the dependent edge and push the child; a failure of
fromSemanticVersion propagates (it is outside the try of
getDependencies). -/
def depLoop (oracle : Nat → FetchOutcome) (fuel : Nat) (selfId : NodeId) :
    List (String × String) → St → List NodeId → (Except String (List NodeId)) × St
  | [], st, acc => (Except.ok acc, st)
  | (depName, depSpec) :: rest, st, acc =>
      match Package.fromSemanticVersion st oracle depName depSpec with
      | (Except.error e, st') => (Except.error e, st')
      | (Except.ok depId, st') =>
          match isAncestorEqualFuel st' fuel selfId depId with
          | none => (Except.error "NON_TERMINATION", st')
          | some true => depLoop oracle fuel selfId rest st' acc
          | some false =>
              depLoop oracle fuel selfId rest (Package.addDependent st' depId selfId) (acc ++ [depId])

/-- Embeds Package.getDependencies: set loading, fetch the scoped
metadata; REGISTRY_ERROR (the 404 signal) is absorbed into an empty
result with no flag change, any other failure sets error, clears
loading and propagates; an undefined response is the TypeError of the
dist access; otherwise record tarballURL, return empty when the
dependencies field is absent, else run the loop and store the result
as the node's dependencies. -/
def Package.getDependencies (st : St) (oracle : Nat → FetchOutcome) (fuel : Nat)
    (selfId : NodeId) : (Except String (List NodeId)) × St :=
  let st0 := setNode st selfId (fun n => { n with loading := true })
  let self := getNode st0 selfId
  match Package.apiRequest st0 oracle { name := self.name, version := some self.version } with
  | (Except.error e, st1) =>
      if e = Errors.REGISTRY_ERROR then (Except.ok [], st1)
      else (Except.error e, setNode st1 selfId (fun n => { n with error := true, loading := false }))
  | (Except.ok none, st1) =>
      (Except.error "TypeError: cannot read properties of undefined", st1)
  | (Except.ok (some resp), st1) =>
      let st2 := setNode st1 selfId (fun n => { n with tarballURL := resp.dist.map Prod.snd })
      match resp.dependencies with
      | none => (Except.ok [], st2)
      | some deps =>
          match depLoop oracle fuel selfId deps st2 [] with
          | (Except.error e, st3) => (Except.error e, st3)
          | (Except.ok result, st3) =>
              (Except.ok result, setNode st3 selfId (fun n => { n with dependencies := result }))

/-- Model of node's path.basename: drop trailing slashes, then the
part after the last remaining slash. -/
def basename (s : String) : String :=
  let t := (s.data.reverse.dropWhile (fun c => c = '/')).reverse
  if t.isEmpty then (if s.data.isEmpty then "" else "/")
  else String.mk ((chSplitOn '/' t []).getLastD [])

/-- Embeds the tgzFileName getter: undefined when tarballURL is falsy,
else the basename of the URL. -/
def Package.tgzFileName (p : Package) : Option String :=
  match p.tarballURL with
  | none => none
  | some url => if url = "" then none else some (basename url)

/-- Model of path.resolve(process.cwd(), fileName) for the relative
basenames the code passes. -/
def pathResolve (cwd fileName : String) : String :=
  cwd ++ "/" ++ fileName

/-- Outcome of one attempt of the download loop: fetch rejects, or
response.buffer() rejects, or a buffer arrives; the Response and
Buffer objects are always truthy so the two falsiness continues of the
source are dead and the status is carried but never read. -/
inductive DlAttempt where
  | fetchThrow
  | bufThrow (status : Nat)
  | ok (status : Nat) (bytes : List Nat)

/-- Embeds the do-while retry loop of Package.download (lines 75-85):
an arriving buffer breaks out, every other attempt retries up to
MAX_TRIES.  Returns the buffer (none when the budget is exhausted) and
the number of fetch calls made. -/
def downloadGo (oracle : Nat → DlAttempt) : Nat → Nat → Option (List Nat) × Nat
  | _, 0 => (none, 0)
  | triesCount, remaining + 1 =>
      match oracle triesCount with
      | DlAttempt.ok _ bytes => (some bytes, 1)
      | _ =>
          if triesCount + 1 < Package.MAX_TRIES then
            let r := downloadGo oracle (triesCount + 1) remaining
            (r.1, r.2 + 1)
          else (none, 1)

/-- Result of Package.download: the outcome (the thrown string or
unit), the number of tarball fetch calls, and the whole-file writes
performed (destination path and bytes). -/
structure DownloadResult where
  outcome : Except String Unit
  fetchCalls : Nat
  writes : List (String × List Nat)
deriving Repr

/-- Embeds Package.download: the guard throws the literal string when
tarballURL or tgzFileName is falsy, before any fetch or write; an
exhausted retry budget throws the (unexpanded) template string; a
fetched buffer is written to cwd/tgzFileName with no status check and
no integrity check. -/
def Package.download (p : Package) (cwd : String) (oracle : Nat → DlAttempt) :
    DownloadResult :=
  if !(optStrTruthy p.tarballURL) || !(optStrTruthy p.tgzFileName) then
    { outcome := Except.error "not enough data for download tgz file",
      fetchCalls := 0, writes := [] }
  else
    match downloadGo oracle 0 Package.MAX_TRIES with
    | (none, c) =>
        { outcome := Except.error "`downloading ${this} failed`",
          fetchCalls := c, writes := [] }
    | (some bytes, c) =>
        { outcome := Except.ok (), fetchCalls := c,
          writes := [(pathResolve cwd (p.tgzFileName.getD ""), bytes)] }

theorem getNode_setNode (st : St) (i : NodeId) (f : Package → Package)
    (h : i < st.nodes.length) : getNode (setNode st i f) i = f (getNode st i) := by
  simp [getNode, setNode, List.getD, List.getElem?_set_eq_of_lt _ h]

theorem apiCache_setNode (st : St) (i : NodeId) (f : Package → Package) :
    (setNode st i f).apiCache = st.apiCache := rfl

theorem fetchCount_setNode (st : St) (i : NodeId) (f : Package → Package) :
    (setNode st i f).fetchCount = st.fetchCount := rfl

/-- C1: two calls to getOrCreate (Package.fromNameAndVersion) with the
same name and version, from any state, return the identical node: the
second call finds the full name in the cache (either it was already
there, or the first call inserted the fresh node under exactly that
key) and returns it without constructing a duplicate or changing the
state. -/
theorem fromNameAndVersion_getOrCreate_identical (st : St) (name version : String) :
    (Package.fromNameAndVersion (Package.fromNameAndVersion st name version).2 name version).1 =
      (Package.fromNameAndVersion st name version).1 ∧
    (Package.fromNameAndVersion (Package.fromNameAndVersion st name version).2 name version).2 =
      (Package.fromNameAndVersion st name version).2 := by
  cases h : List.lookup (fullNameByNameAndVersion name version) st.cache with
  | some id =>
      constructor <;> simp [Package.fromNameAndVersion, h]
  | none =>
      constructor <;>
        simp [Package.fromNameAndVersion, h, Package.fullName, List.lookup]

/-- Registry fixture for the mutual-dependency scenario: the
per-version metadata of A@1.0.0 lists B, that of B@1.0.0 lists A. -/
def respA1 : APIResponse :=
  APIResponse.mk (some [("B", "1.0.0")]) (some ("shaA", "https://reg/A-1.0.0.tgz")) none

def respA : APIResponse := APIResponse.mk none none (some [("1.0.0", respA1)])

def respB1 : APIResponse :=
  APIResponse.mk (some [("A", "1.0.0")]) (some ("shaB", "https://reg/B-1.0.0.tgz")) none

def respB : APIResponse := APIResponse.mk none none (some [("1.0.0", respB1)])

/-- An oracle whose every fetch rejects: used where no network call is
expected to happen, so its value never matters. -/
def oracleAllThrow : Nat → FetchOutcome := fun _ => FetchOutcome.fthrow

def stC2Start : St :=
  { nodes := [], cache := [], apiCache := [("A", respA), ("B", respB)], fetchCount := 0 }

/-- The root node A@1.0.0 (arena index 0). -/
def stC2A : St := (Package.fromNameAndVersion stC2Start "A" "1.0.0").2

/-- Expansion of A, which creates B@1.0.0 as arena index 1. -/
def c2ExpandA : (Except String (List NodeId)) × St :=
  Package.getDependencies stC2A oracleAllThrow 5 0

/-- Expansion of B after A. -/
def c2ExpandB : (Except String (List NodeId)) × St :=
  Package.getDependencies c2ExpandA.2 oracleAllThrow 5 1

/-- C2: in the mutual-dependency scenario (A depends on B, B depends
on A), expanding A keeps the edge to B (B is not yet an ancestor of A)
and records A as B's dependent, then expanding B drops the edge to A
silently (isAncestorEqual finds A in B's dependent chain), so the
final graph has A.dependencies = [B], B.dependencies = [], with both
expansions returning ok rather than an error. -/
theorem mutual_dependency_cycle_breaking :
    c2ExpandA.1 = Except.ok [1] ∧
    c2ExpandB.1 = Except.ok [] ∧
    (getNode c2ExpandB.2 0).dependencies = [1] ∧
    (getNode c2ExpandB.2 1).dependencies = [] ∧
    (getNode c2ExpandB.2 1).dependents = [0] := by
  refine ⟨?_, ?_, ?_, ?_, ?_⟩ <;> rfl

/-- Registry fixture for C3: the unscoped metadata of "pkg" publishes
versions 3.0.0, 3.9.3 and 4.0.0. -/
def regC3 : APIResponse :=
  APIResponse.mk none none
    (some [("3.0.0", APIResponse.mk none none none),
           ("3.9.3", APIResponse.mk none none none),
           ("4.0.0", APIResponse.mk none none none)])

def stC3 : St := { nodes := [], cache := [], apiCache := [("pkg", regC3)], fetchCount := 0 }

/-- C3 counterexample: with published versions 3.0.0, 3.9.3, 4.0.0,
resolving the specifier caret-3.0.0 yields the node pkg@3.0.0, not
pkg@3.9.3: the specifier contains neither a comparator nor a hyphen,
so fromSemanticVersion coerces it instead of running maxSatisfying
over the published versions. -/
theorem caret_range_resolves_to_coerced_not_max :
    (Package.fromSemanticVersion stC3 oracleAllThrow "pkg" "^3.0.0").1 = Except.ok 0 ∧
    (getNode (Package.fromSemanticVersion stC3 oracleAllThrow "pkg" "^3.0.0").2 0).version
      = "3.0.0" ∧
    (getNode (Package.fromSemanticVersion stC3 oracleAllThrow "pkg" "^3.0.0").2 0).version
      ≠ "3.9.3" := by
  refine ⟨rfl, rfl, by decide⟩

/-- C3 amended: resolving caret-3.0.0 against that fixture yields the
concrete version 3.0.0 (semver.coerce of the specifier) and performs
no metadata fetch; the maxSatisfying selection applies only to
specifiers containing a comparator or a hyphen. -/
theorem caret_range_coerced_without_registry :
    (Package.fromSemanticVersion stC3 oracleAllThrow "pkg" "^3.0.0").1 = Except.ok 0 ∧
    (getNode (Package.fromSemanticVersion stC3 oracleAllThrow "pkg" "^3.0.0").2 0).version
      = "3.0.0" ∧
    (Package.fromSemanticVersion stC3 oracleAllThrow "pkg" "^3.0.0").2.fetchCount = 0 := by
  refine ⟨rfl, rfl, rfl⟩

def stEmpty : St := { nodes := [], cache := [], apiCache := [], fetchCount := 0 }

/-- An oracle that always answers with HTTP 500. -/
def oracle500 : Nat → FetchOutcome :=
  fun _ => FetchOutcome.resp 500 "Internal Server Error" (JsonOutcome.val none)

/-- A run of consecutive transport exceptions long enough to exhaust
the whole retry budget makes the loop throw TOO_MANY_FAILURES after
exactly that many fetch calls. -/
theorem apiRequestLoop_allThrow (oracle : Nat → FetchOutcome) :
    ∀ remaining fc triesCount, triesCount + remaining = Package.MAX_TRIES → 0 < remaining →
      (∀ k, k < remaining → oracle (fc + k) = FetchOutcome.fthrow) →
      apiRequestLoop oracle fc triesCount remaining =
        (Except.error Errors.TOO_MANY_FAILURES, fc + remaining) := by
  intro remaining
  induction remaining with
  | zero => intro fc tc hsum h0 hthrow; omega
  | succ r ih =>
      intro fc tc hsum h0 hthrow
      have hfc : oracle fc = FetchOutcome.fthrow := by
        have := hthrow 0 (Nat.succ_pos r); simpa using this
      by_cases hlt : tc + 1 < Package.MAX_TRIES
      · have hr : 0 < r := by
          simp [Package.MAX_TRIES] at hsum hlt; omega
        have hrec := ih (fc + 1) (tc + 1) (by omega) hr
          (fun k hk => by
            have := hthrow (k + 1) (by omega)
            simpa [Nat.add_assoc, Nat.add_comm 1 k] using this)
        have harith : fc + 1 + r = fc + (r + 1) := by omega
        simp only [apiRequestLoop, hfc, if_pos hlt, hrec, harith]
      · have hr0 : r = 0 := by
          simp [Package.MAX_TRIES] at hsum hlt; omega
        subst hr0
        simp only [apiRequestLoop, hfc, if_neg hlt]

/-- A non-ok, non-404 status on the current attempt makes the loop
throw the statusText at once, after this single fetch call. -/
theorem apiRequestLoop_statusThrow (oracle : Nat → FetchOutcome)
    (fc tc r status : Nat) (stext : String) (body : JsonOutcome)
    (hfc : oracle fc = FetchOutcome.resp status stext body)
    (hok : ¬(200 ≤ status ∧ status < 300)) (h404 : status ≠ 404) :
    apiRequestLoop oracle fc tc (r + 1) = (Except.error stext, fc + 1) := by
  simp only [apiRequestLoop, hfc, if_neg hok, if_neg h404]

/-- A 404 on the current attempt makes the loop throw REGISTRY_ERROR
at once, after this single fetch call. -/
theorem apiRequestLoop_404 (oracle : Nat → FetchOutcome)
    (fc tc r : Nat) (stext : String) (body : JsonOutcome)
    (hfc : oracle fc = FetchOutcome.resp 404 stext body) :
    apiRequestLoop oracle fc tc (r + 1) = (Except.error Errors.REGISTRY_ERROR, fc + 1) := by
  have hok : ¬(200 ≤ (404 : Nat) ∧ (404 : Nat) < 300) := by decide
  simp [apiRequestLoop, hfc, if_neg hok]

/-- C4 counterexample: an uncached metadata request answered with HTTP
500 on its first attempt fails immediately with the statusText, after
a single fetch call, not with TooManyFailures after ten attempts. -/
theorem non404_status_thrown_after_one_attempt :
    (Package.apiRequest stEmpty oracle500 { name := "pkg", version := none }).1 =
      Except.error "Internal Server Error" ∧
    (Package.apiRequest stEmpty oracle500 { name := "pkg", version := none }).2.fetchCount = 1 ∧
    ("Internal Server Error" : String) ≠ Errors.TOO_MANY_FAILURES := by
  refine ⟨rfl, rfl, by decide⟩

/-- C4 amended: only transport exceptions (and empty or unparseable
bodies) count as failed attempts and are retried immediately; ten such
failed attempts make apiRequest fail with TooManyFailures, while a
non-success status other than 404 makes apiRequest fail at once with
the response's statusText, after exactly one fetch. -/
theorem apiRequest_retry_only_transport_failures :
    (∀ (st : St) (oracle : Nat → FetchOutcome) (name : String),
      List.lookup name st.apiCache = none →
      (∀ k, k < Package.MAX_TRIES → oracle (st.fetchCount + k) = FetchOutcome.fthrow) →
      Package.apiRequest st oracle { name := name, version := none } =
        (Except.error Errors.TOO_MANY_FAILURES,
         { st with fetchCount := st.fetchCount + Package.MAX_TRIES })) ∧
    (∀ (st : St) (oracle : Nat → FetchOutcome) (name : String)
        (status : Nat) (stext : String) (body : JsonOutcome),
      List.lookup name st.apiCache = none →
      oracle st.fetchCount = FetchOutcome.resp status stext body →
      ¬(200 ≤ status ∧ status < 300) → status ≠ 404 →
      Package.apiRequest st oracle { name := name, version := none } =
        (Except.error stext, { st with fetchCount := st.fetchCount + 1 })) := by
  constructor
  · intro st oracle name hc hthrow
    have hloop := apiRequestLoop_allThrow oracle Package.MAX_TRIES st.fetchCount 0
      (by simp) (by decide) hthrow
    simp [Package.apiRequest, hc, hloop]
  · intro st oracle name status stext body hc hfc hok h404
    have hloop : apiRequestLoop oracle st.fetchCount 0 Package.MAX_TRIES =
        (Except.error stext, st.fetchCount + 1) :=
      apiRequestLoop_statusThrow oracle st.fetchCount 0 9 status stext body hfc hok h404
    simp [Package.apiRequest, hc, hloop]

/-- Witness for the amended C4 at concrete inputs: an all-throw oracle
yields TooManyFailures after ten fetches, a constant-500 oracle yields
its statusText after one. -/
theorem apiRequest_retry_only_transport_failures_witness :
    Package.apiRequest stEmpty oracleAllThrow { name := "pkg", version := none } =
      (Except.error Errors.TOO_MANY_FAILURES,
       { stEmpty with fetchCount := stEmpty.fetchCount + Package.MAX_TRIES }) ∧
    Package.apiRequest stEmpty oracle500 { name := "pkg", version := none } =
      (Except.error "Internal Server Error", { stEmpty with fetchCount := stEmpty.fetchCount + 1 }) := by
  constructor
  · exact apiRequest_retry_only_transport_failures.1 stEmpty oracleAllThrow "pkg" rfl
      (fun k hk => rfl)
  · exact apiRequest_retry_only_transport_failures.2 stEmpty oracle500 "pkg" 500
      "Internal Server Error" (JsonOutcome.val none) rfl rfl (by decide) (by decide)

/-- C5: a node whose scoped metadata fetch is answered with HTTP 404
has the failure absorbed locally by getDependencies: the expansion
returns ok with an empty list, the node's error flag is untouched (so
stays false when it was false), and no failure reaches the caller. -/
theorem notFound_absorbed_as_empty (st : St) (oracle : Nat → FetchOutcome) (fuel : Nat)
    (i : NodeId) (stext : String) (body : JsonOutcome)
    (hlen : i < st.nodes.length)
    (hc : List.lookup (getNode st i).name st.apiCache = none)
    (hfc : oracle st.fetchCount = FetchOutcome.resp 404 stext body) :
    (Package.getDependencies st oracle fuel i).1 = Except.ok [] ∧
    (getNode (Package.getDependencies st oracle fuel i).2 i).error = (getNode st i).error := by
  have hset := getNode_setNode st i (fun n => { n with loading := true }) hlen
  have hloop : apiRequestLoop oracle st.fetchCount 0 Package.MAX_TRIES =
      (Except.error Errors.REGISTRY_ERROR, st.fetchCount + 1) :=
    apiRequestLoop_404 oracle st.fetchCount 0 9 stext body hfc
  have hreq : Package.apiRequest (setNode st i (fun n => { n with loading := true })) oracle
      { name := (getNode (setNode st i (fun n => { n with loading := true })) i).name,
        version := some (getNode (setNode st i (fun n => { n with loading := true })) i).version } =
      (Except.error Errors.REGISTRY_ERROR,
       { setNode st i (fun n => { n with loading := true }) with fetchCount := st.fetchCount + 1 }) := by
    simp only [Package.apiRequest, hset, apiCache_setNode, fetchCount_setNode, hc, hloop]
  have hgd : Package.getDependencies st oracle fuel i =
      (Except.ok [],
       { setNode st i (fun n => { n with loading := true }) with
         fetchCount := st.fetchCount + 1 }) := by
    simp only [Package.getDependencies, hreq]
    simp [setNode]
  have hnodes : getNode { setNode st i (fun n => { n with loading := true }) with
      fetchCount := st.fetchCount + 1 } i =
      getNode (setNode st i (fun n => { n with loading := true })) i := rfl
  refine ⟨by rw [hgd], ?_⟩
  rw [hgd, hnodes, hset]

def node404St : St :=
  { nodes := [{ name := "gone", version := "1.0.0" }],
    cache := [("gone@1.0.0", 0)], apiCache := [], fetchCount := 0 }

def oracle404 : Nat → FetchOutcome :=
  fun _ => FetchOutcome.resp 404 "Not Found" (JsonOutcome.val none)

/-- Witness for C5: a concrete uncached node against a constant-404
oracle expands to ok [] with its error flag still false. -/
theorem notFound_absorbed_as_empty_witness :
    (Package.getDependencies node404St oracle404 5 0).1 = Except.ok [] ∧
    (getNode (Package.getDependencies node404St oracle404 5 0).2 0).error =
      (getNode node404St 0).error := by
  exact notFound_absorbed_as_empty node404St oracle404 5 0 "Not Found" (JsonOutcome.val none)
    (by decide) rfl rfl

/-- C6 counterexample: resolveToConcreteVersion can fail.  An
uncached name with a range specifier containing a comparator makes
fromSemanticVersion fetch unscoped metadata; a 404 answer propagates
out of fromSemanticVersion as the thrown REGISTRY_ERROR instead of any
fallback to the sentinel latest. -/
theorem fromSemanticVersion_range_path_can_fail :
    (Package.fromSemanticVersion stEmpty oracle404 "pkg" "<1.0.0").1 =
      Except.error Errors.REGISTRY_ERROR := rfl

/-- C6 amended: fromSemanticVersion cannot fail when the specifier is
the wildcard or contains neither a comparator nor a hyphen: it then
resolves with no network involvement to "latest" for the wildcard and
to the coercion of the specifier (falling back to "latest" when not
coercible) otherwise; and on the comparator-or-hyphen path whose
metadata fetch succeeds through the cache, it resolves to
maxSatisfying over the published version keys with "latest" as the
fallback when no version satisfies.  Only a failing metadata fetch of
that path makes fromSemanticVersion fail. -/
theorem fromSemanticVersion_fallbacks_not_total :
    (∀ (st : St) (oracle : Nat → FetchOutcome) (name spec : String),
      spec = "*" ∨ (spec.data.contains '<' = false ∧ spec.data.contains '-' = false) →
      (Package.fromSemanticVersion st oracle name spec).1 =
        Except.ok (Package.fromNameAndVersion st name
          (if spec = "*" then "latest" else (semverCoerce spec).getD "latest")).1 ∧
      (Package.fromSemanticVersion st oracle name spec).2 =
        (Package.fromNameAndVersion st name
          (if spec = "*" then "latest" else (semverCoerce spec).getD "latest")).2) ∧
    (∀ (st : St) (oracle : Nat → FetchOutcome) (name spec : String)
        (r : APIResponse) (m : List (String × APIResponse)),
      spec ≠ "*" → (spec.data.contains '<' || spec.data.contains '-') = true →
      List.lookup name st.apiCache = some r → r.versions = some m →
      (Package.fromSemanticVersion st oracle name spec).1 =
        Except.ok (Package.fromNameAndVersion st name
          ((semverMaxSatisfying (m.map Prod.fst) spec).getD "latest")).1) := by
  constructor
  · intro st oracle name spec h
    by_cases hs : spec = "*"
    · subst hs
      constructor <;> simp [Package.fromSemanticVersion]
    · rcases h with h | ⟨h1, h2⟩
      · exact absurd h hs
      · simp at h1 h2
        constructor <;> simp [Package.fromSemanticVersion, hs, h1, h2]
  · intro st oracle name spec r m hs hcont hc hv
    simp at hcont
    simp [Package.fromSemanticVersion, hs, hcont, Package.apiRequest, hc, optStrTruthy, hv]

def regNoSat : APIResponse :=
  APIResponse.mk none none (some [("0.5.0", APIResponse.mk none none none)])

def stNoSat : St :=
  { nodes := [], cache := [], apiCache := [("pkg", regNoSat)], fetchCount := 0 }

/-- Witness for the amended C6: a concrete pinned specifier resolves
offline by coercion, and a concrete cached range that no published
version satisfies falls back to "latest". -/
theorem fromSemanticVersion_fallbacks_not_total_witness :
    ((Package.fromSemanticVersion stEmpty oracleAllThrow "pkg" "1.2.3").1 =
      Except.ok (Package.fromNameAndVersion stEmpty "pkg"
        (if ("1.2.3" : String) = "*" then "latest" else (semverCoerce "1.2.3").getD "latest")).1 ∧
    (Package.fromSemanticVersion stEmpty oracleAllThrow "pkg" "1.2.3").2 =
      (Package.fromNameAndVersion stEmpty "pkg"
        (if ("1.2.3" : String) = "*" then "latest" else (semverCoerce "1.2.3").getD "latest")).2) ∧
    (Package.fromSemanticVersion stNoSat oracleAllThrow "pkg" "<0.1.0").1 =
      Except.ok (Package.fromNameAndVersion stNoSat "pkg"
        ((semverMaxSatisfying ([("0.5.0", APIResponse.mk none none none)].map Prod.fst)
          "<0.1.0").getD "latest")).1 :=
  ⟨fromSemanticVersion_fallbacks_not_total.1 stEmpty oracleAllThrow "pkg" "1.2.3"
      (Or.inr ⟨rfl, rfl⟩),
   fromSemanticVersion_fallbacks_not_total.2 stNoSat oracleAllThrow "pkg" "<0.1.0" regNoSat
      [("0.5.0", APIResponse.mk none none none)] (by decide) rfl rfl rfl⟩

def stSeeded : St := Package.fillCacheByFullNames stEmpty ["left-pad@1.3.0"]

/-- C7: after seeding the cache from the full name left-pad@1.3.0,
resolving the same specifier returns the seeded node (arena index 0)
with resolved = true, and neither the seeding nor the resolution
performs any fetch (the fetch counter never moves; neither operation
even consults an oracle). -/
theorem seeded_resolution_is_cached_and_offline :
    (Package.fromString stSeeded "left-pad@1.3.0").1 = some 0 ∧
    (getNode (Package.fromString stSeeded "left-pad@1.3.0").2 0).resolved = true ∧
    (Package.fromString stSeeded "left-pad@1.3.0").2.fetchCount = 0 ∧
    stSeeded.fetchCount = 0 := ⟨rfl, rfl, rfl, rfl⟩

/-- A successful buffer on the current download attempt breaks the
loop after this single fetch. -/
theorem downloadGo_first_ok (oracle : Nat → DlAttempt) (tc r status : Nat) (bytes : List Nat)
    (h : oracle tc = DlAttempt.ok status bytes) :
    downloadGo oracle tc (r + 1) = (some bytes, 1) := by
  simp only [downloadGo, h]

/-- C8: download on a node with no tarballURL throws its guard string
with zero fetch calls and zero writes; and whenever the tarball fetch
loop produces a buffer for a set tarballURL, the bytes are written to
exactly one destination, the current working directory joined with the
final path segment of the tarball URL. -/
theorem download_guard_and_flat_destination :
    (∀ (p : Package) (cwd : String) (oracle : Nat → DlAttempt),
      p.tarballURL = none →
      Package.download p cwd oracle =
        { outcome := Except.error "not enough data for download tgz file",
          fetchCalls := 0, writes := [] }) ∧
    (∀ (p : Package) (cwd url : String) (oracle : Nat → DlAttempt) (bytes : List Nat) (c : Nat),
      p.tarballURL = some url → url ≠ "" → basename url ≠ "" →
      downloadGo oracle 0 Package.MAX_TRIES = (some bytes, c) →
      Package.download p cwd oracle =
        { outcome := Except.ok (), fetchCalls := c,
          writes := [(pathResolve cwd (basename url), bytes)] }) := by
  constructor
  · intro p cwd oracle h
    simp [Package.download, h, optStrTruthy, Package.tgzFileName]
  · intro p cwd url oracle bytes c h hne hbne hgo
    simp [Package.download, h, hne, hbne, optStrTruthy, Package.tgzFileName, hgo]

def nodeNoTarball : Package := { name := "a", version := "1.0.0" }

def nodeWithTarball : Package :=
  { name := "a", version := "1.0.0", tarballURL := some "https://reg/a-1.0.0.tgz" }

def dlOracleOk : Nat → DlAttempt := fun _ => DlAttempt.ok 200 [1, 2, 3]

/-- Witness for C8 at concrete inputs: the guard fires with no fetch
and no write, and a successful fetch writes cwd/a-1.0.0.tgz. -/
theorem download_guard_and_flat_destination_witness :
    Package.download nodeNoTarball "/cwd" dlOracleOk =
      { outcome := Except.error "not enough data for download tgz file",
        fetchCalls := 0, writes := [] } ∧
    Package.download nodeWithTarball "/cwd" dlOracleOk =
      { outcome := Except.ok (), fetchCalls := 1,
        writes := [(pathResolve "/cwd" (basename "https://reg/a-1.0.0.tgz"), [1, 2, 3])] } := by
  constructor
  · exact download_guard_and_flat_destination.1 nodeNoTarball "/cwd" dlOracleOk rfl
  · exact download_guard_and_flat_destination.2 nodeWithTarball "/cwd"
      "https://reg/a-1.0.0.tgz" dlOracleOk [1, 2, 3] 1 rfl (by decide) (by decide) rfl

/-- C9: download never inspects the HTTP status of the tarball
response: a first attempt that yields a buffer under any status
whatsoever, a 404 error page included, is written to disk as a
successful download after exactly one fetch. -/
theorem download_ignores_response_status (p : Package) (cwd url : String)
    (oracle : Nat → DlAttempt) (status : Nat) (bytes : List Nat)
    (h : p.tarballURL = some url) (hne : url ≠ "") (hbne : basename url ≠ "")
    (hfirst : oracle 0 = DlAttempt.ok status bytes) :
    Package.download p cwd oracle =
      { outcome := Except.ok (), fetchCalls := 1,
        writes := [(pathResolve cwd (basename url), bytes)] } := by
  have hgo : downloadGo oracle 0 Package.MAX_TRIES = (some bytes, 1) :=
    downloadGo_first_ok oracle 0 9 status bytes hfirst
  simp [Package.download, h, hne, hbne, optStrTruthy, Package.tgzFileName, hgo]

def dlOracle404 : Nat → DlAttempt := fun _ => DlAttempt.ok 404 [9, 9]

/-- Witness for C9: a tarball response with status 404 is written to
disk like a success. -/
theorem download_ignores_response_status_witness :
    Package.download nodeWithTarball "/cwd" dlOracle404 =
      { outcome := Except.ok (), fetchCalls := 1,
        writes := [(pathResolve "/cwd" (basename "https://reg/a-1.0.0.tgz"), [9, 9])] } :=
  download_ignores_response_status nodeWithTarball "/cwd" "https://reg/a-1.0.0.tgz"
    dlOracle404 404 [9, 9] rfl (by decide) (by decide) rfl

/-- C10: a scoped request (truthy version) for a name already in the
unscoped registry cache returns the cached versions map's entry for
that version by direct unguarded lookup (ok of the lookup result,
which is none, the undefined of the source, when the key is absent),
raises nothing, and leaves the state untouched, in particular with no
fetch. -/
theorem cached_scoped_lookup_unguarded (st : St) (oracle : Nat → FetchOutcome)
    (name v : String) (r : APIResponse) (m : List (String × APIResponse))
    (hc : List.lookup name st.apiCache = some r)
    (hv : r.versions = some m) (hne : v ≠ "") :
    Package.apiRequest st oracle { name := name, version := some v } =
      (Except.ok (List.lookup v m), st) := by
  simp [Package.apiRequest, hc, hv, optStrTruthy, hne]

def regC10 : APIResponse :=
  APIResponse.mk none none (some [("1.0.0", APIResponse.mk none none none)])

def stC10 : St :=
  { nodes := [], cache := [], apiCache := [("tool", regC10)], fetchCount := 0 }

/-- Witness for C10: requesting version 2.0.0 of a name cached with
only version 1.0.0 yields ok none (undefined), not an error, with the
state unchanged. -/
theorem cached_scoped_lookup_unguarded_witness :
    Package.apiRequest stC10 oracleAllThrow { name := "tool", version := some "2.0.0" } =
      ((Except.ok none : Except String (Option APIResponse)), stC10) :=
  cached_scoped_lookup_unguarded stC10 oracleAllThrow "tool" "2.0.0" regC10
    [("1.0.0", APIResponse.mk none none none)] rfl rfl (by decide)
